import Mathlib

/-!
Verification of the mfanekisoPilot capture-to-text pipeline.

Shallow embedding of the state and handlers of the OCR study-tool app:
* `ImagePreprocessor.tsx` — rotation / scale adjustment and canvas rendering,
* `OCRUpload.tsx` — session state, OCR run, QA turns, study-feature generation,
* `supabase/functions/ai-study-tools/index.ts` — the generation service.

Stateful React handlers become explicit state-passing functions on a
`SessionState` record; async handlers are split into their synchronous
phases (start / resolve) so that interleavings can be expressed; fallible
operations return `Except`.
-/

namespace Mfanekiso

/-! ## ImagePreprocessor: adjustment state -/

/-- The two `useState` cells of `ImagePreprocessor`: `rotation` (degrees)
and `scale`.  Scale is modelled as a rational (the slider values are the
decimals 0.5 … 2.0 in steps of 0.1, all exact rationals). -/
structure AdjustmentState where
  rotation : Nat
  scale : ℚ
  deriving Repr, DecidableEq

/-- Handler `handleRotate`: `setRotation((prev) => (prev + 90) % 360)`. -/
def handleRotate (rotation : Nat) : Nat :=
  (rotation + 90) % 360

/-- Rotation after `n` successive `handleRotate` clicks starting from 0. -/
def rotateN : Nat → Nat
  | 0 => 0
  | n + 1 => handleRotate (rotateN n)

/-- Modelled from the spec: the slider component `@/components/ui/slider`
is not among the sources (only its call site in `ImagePreprocessor.tsx`,
which passes `min={0.5} max={2} step={0.1}` and stores the delivered value
with `setScale(value[0])`).  Per the spec, `setScale(s)` clamps to
[0.5, 2.0]. -/
def setScale (s : ℚ) : ℚ :=
  max (1/2) (min 2 s)

/-- Storing a slider-delivered scale value in the adjustment state. -/
def applyScale (s : ℚ) (st : AdjustmentState) : AdjustmentState :=
  { st with scale := setScale s }

/-- Handler `handleRotate` lifted to the adjustment state. -/
def applyRotate (st : AdjustmentState) : AdjustmentState :=
  { st with rotation := handleRotate st.rotation }

/-- Handler `handleReset`: `setRotation(0); setScale(1)`. -/
def handleReset (_ : AdjustmentState) : AdjustmentState :=
  { rotation := 0, scale := 1 }

/-! ## ImagePreprocessor: canvas rendering (`applyFilters`) -/

/-- Pixel dimensions of the source image (`img.width`, `img.height`). -/
structure ImageDims where
  width : ℚ
  height : ℚ
  deriving Repr, DecidableEq

/-- One 2D-context drawing call issued by `applyFilters`, in source order.
`rotateRad c` records the call `ctx.rotate((rotation * Math.PI) / 180)`:
the argument is `π` times the recorded rational `c = rotation / 180`. -/
inductive CanvasOp where
  | clearRect (x y w h : ℚ)
  | save
  | translate (x y : ℚ)
  | rotateRad (piMultiple : ℚ)
  | scaleXY (sx sy : ℚ)
  | drawImage (dx dy dw dh : ℚ)
  | restore
  deriving Repr, DecidableEq

/-- The canvas as left by `applyFilters`: its dimensions and the ordered
list of context calls performed on it. -/
structure Canvas where
  width : ℚ
  height : ℚ
  ops : List CanvasOp
  deriving Repr, DecidableEq

/-- Function `applyFilters` of `ImagePreprocessor.tsx`: sizes the canvas (swapping
width/height when `rotation % 180 !== 0`, then multiplying by `scale`),
clears it, and draws the image via translate → rotate → scale → centered
`drawImage`. -/
def applyFilters (img : ImageDims) (st : AdjustmentState) : Canvas :=
  let isRotated : Bool := st.rotation % 180 ≠ 0
  let width : ℚ := if isRotated then img.height else img.width
  let height : ℚ := if isRotated then img.width else img.height
  let cw : ℚ := width * st.scale
  let ch : ℚ := height * st.scale
  { width := cw
    height := ch
    ops := [ CanvasOp.clearRect 0 0 cw ch
           , CanvasOp.save
           , CanvasOp.translate (cw / 2) (ch / 2)
           , CanvasOp.rotateRad ((st.rotation : ℚ) / 180)
           , CanvasOp.scaleXY st.scale st.scale
           , CanvasOp.drawImage (-(img.width / 2)) (-(img.height / 2)) img.width img.height
           , CanvasOp.restore ] }

/-! ## Claims C6, C7, C8 -/

/-- C6: starting from rotation 0, after `n` `rotate()` calls the rotation
equals `(90 * n) % 360`; in particular 4 calls return it to 0, and each
single call advances it by +90 modulo 360. -/
theorem rotate_count_mod_360 :
    (∀ n : Nat, rotateN n = (90 * n) % 360) ∧
    rotateN 4 = 0 ∧
    (∀ r : Nat, handleRotate r = (r + 90) % 360) := by
  have key : ∀ n : Nat, rotateN n = (90 * n) % 360 := by
    intro n
    induction n with
    | zero => rfl
    | succ k ih =>
        have h1 : rotateN (k + 1) = (rotateN k + 90) % 360 := rfl
        rw [h1, ih]
        omega
  refine ⟨key, ?_, fun _ => rfl⟩
  rw [key 4]

/-- C7: every slider input is clamped into [0.5, 2.0], and the sequence
`setScale(0.5)`, `setScale(2.0)`, `reset()` ends with scale 1 and
rotation 0. -/
theorem scale_clamped_and_reset :
    (∀ (s : ℚ) (st : AdjustmentState),
      1/2 ≤ (applyScale s st).scale ∧ (applyScale s st).scale ≤ 2) ∧
    (∀ st : AdjustmentState,
      (handleReset (applyScale 2 (applyScale (1/2) st))).scale = 1 ∧
      (handleReset (applyScale 2 (applyScale (1/2) st))).rotation = 0) := by
  constructor
  · intro s st
    constructor
    · exact le_max_left _ _
    · exact max_le (by norm_num) (min_le_left _ _)
  · intro st
    exact ⟨rfl, rfl⟩

/-- C8: when the stored rotation is `90 * k`, `applyFilters` swaps the
canvas width and height exactly when `k` is odd, and issues the context
calls in the fixed order translate-to-new-canvas-center, rotate, scale,
draw-image-centered-at-its-own-origin. -/
theorem applyFilters_swap_and_order (img : ImageDims) (st : AdjustmentState)
    (k : Nat) (hk : st.rotation = 90 * k) :
    ((applyFilters img st).width =
        (if k % 2 = 1 then img.height else img.width) * st.scale ∧
      (applyFilters img st).height =
        (if k % 2 = 1 then img.width else img.height) * st.scale) ∧
    (applyFilters img st).ops =
      [ CanvasOp.clearRect 0 0 ((applyFilters img st).width) ((applyFilters img st).height)
      , CanvasOp.save
      , CanvasOp.translate ((applyFilters img st).width / 2) ((applyFilters img st).height / 2)
      , CanvasOp.rotateRad ((st.rotation : ℚ) / 180)
      , CanvasOp.scaleXY st.scale st.scale
      , CanvasOp.drawImage (-(img.width / 2)) (-(img.height / 2)) img.width img.height
      , CanvasOp.restore ] := by
  have hmod : (st.rotation % 180 ≠ 0) ↔ (k % 2 = 1) := by
    rw [hk]; omega
  constructor
  · by_cases hodd : k % 2 = 1
    · have h1 : st.rotation % 180 ≠ 0 := hmod.mpr hodd
      simp [applyFilters, h1, hodd]
    · have h1 : ¬ st.rotation % 180 ≠ 0 := fun h => hodd (hmod.mp h)
      simp [applyFilters, h1, hodd]
  · by_cases hodd : k % 2 = 1
    · have h1 : st.rotation % 180 ≠ 0 := hmod.mpr hodd
      simp [applyFilters, h1]
    · have h1 : ¬ st.rotation % 180 ≠ 0 := fun h => hodd (hmod.mp h)
      simp [applyFilters, h1]

/-- C8 witness: a 30×20 image at rotation 90 (k = 1), scale 1: the canvas
is 20×30 (dimensions swapped) and the ops are in the required order. -/
theorem applyFilters_swap_and_order_witness :
    ((applyFilters ⟨30, 20⟩ ⟨90, 1⟩).width =
        (if 1 % 2 = 1 then (20 : ℚ) else 30) * 1 ∧
      (applyFilters ⟨30, 20⟩ ⟨90, 1⟩).height =
        (if 1 % 2 = 1 then (30 : ℚ) else 20) * 1) ∧
    (applyFilters ⟨30, 20⟩ ⟨90, 1⟩).ops =
      [ CanvasOp.clearRect 0 0 ((applyFilters ⟨30, 20⟩ ⟨90, 1⟩).width) ((applyFilters ⟨30, 20⟩ ⟨90, 1⟩).height)
      , CanvasOp.save
      , CanvasOp.translate ((applyFilters ⟨30, 20⟩ ⟨90, 1⟩).width / 2) ((applyFilters ⟨30, 20⟩ ⟨90, 1⟩).height / 2)
      , CanvasOp.rotateRad ((90 : ℚ) / 180)
      , CanvasOp.scaleXY 1 1
      , CanvasOp.drawImage (-(30 / 2 : ℚ)) (-(20 / 2 : ℚ)) 30 20
      , CanvasOp.restore ] :=
  applyFilters_swap_and_order ⟨30, 20⟩ ⟨90, 1⟩ 1 rfl

/-! ## OCRUpload: session state -/

/-- A QA turn (`QAPair` in `OCRUpload.tsx`): question, answer (the sentinel
`"..."` while pending), and the `Date.now()` millisecond timestamp taken
when the turn was created. -/
structure QAPair where
  question : String
  answer : String
  timestamp : Nat
  deriving Repr, DecidableEq

/-- The four study-feature kinds (`StudyFeature` minus `null`; absence is
`Option.none` on the state field). -/
inductive StudyFeature where
  | lesson
  | flashcards
  | summarize
  | quiz
  deriving Repr, DecidableEq

/-- The `useState` cells of the `OCRUpload` component. -/
structure SessionState where
  image : Option String
  extractedText : String
  isProcessing : Bool
  progress : Nat
  copied : Bool
  isDragging : Bool
  showPreprocessor : Bool
  showCamera : Bool
  question : String
  qaHistory : List QAPair
  isAnswering : Bool
  activeFeature : Option StudyFeature
  studyResult : String
  isGenerating : Bool
  deriving Repr, DecidableEq

/-- The initial state of the component (each `useState` initializer). -/
def initialState : SessionState :=
  { image := none
    extractedText := ""
    isProcessing := false
    progress := 0
    copied := false
    isDragging := false
    showPreprocessor := false
    showCamera := false
    question := ""
    qaHistory := []
    isAnswering := false
    activeFeature := none
    studyResult := ""
    isGenerating := false }

/-! ## OCRUpload: OCR run and reset -/

/-- Handler `processOCR`: sets processing flags, runs Tesseract (modelled as an
`Except` outcome), on success stores the recognized text and clears the
image, and in the `finally` block clears the processing flag and the
progress. -/
def processOCR (ocr : Except Unit String) (s : SessionState) : SessionState :=
  let s1 := { s with isProcessing := true, progress := 0, showPreprocessor := false }
  match ocr with
  | Except.ok text =>
      let s2 := { s1 with extractedText := text, image := none }
      { s2 with isProcessing := false, progress := 0 }
  | Except.error _ =>
      { s1 with isProcessing := false, progress := 0 }

/-- Handler `resetUpload`: clears image, text, view flags, question, QA history,
active feature and study result. -/
def resetUpload (s : SessionState) : SessionState :=
  { s with image := none
           extractedText := ""
           showPreprocessor := false
           showCamera := false
           question := ""
           qaHistory := []
           activeFeature := none
           studyResult := "" }

/-! ## OCRUpload: the AI service wrapper -/

/-- The `try` body of `callAIStudyTool`: `supabase.functions.invoke`
returns `{ data, error }` (modelled by `invokeError` — the error with its
message when the invoke fails — and `invokeResult` — `data?.result`).  An
invoke error is re-thrown; a falsy `data?.result` (absent or the empty
string) raises `No response from AI`; otherwise the result is returned. -/
def invokeAIStudyTool (invokeError : Option String)
    (invokeResult : Option String) : Except String String :=
  match invokeError with
  | some e => Except.error e
  | none =>
      match invokeResult with
      | none => Except.error "No response from AI"
      | some r => if r = "" then Except.error "No response from AI" else Except.ok r

/-- Function `callAIStudyTool`: the `catch` block replaces whatever error was
thrown inside the `try` body by a fresh error carrying the fixed message
`Failed to process with AI`. -/
def callAIStudyTool (invokeError : Option String)
    (invokeResult : Option String) : Except String String :=
  match invokeAIStudyTool invokeError invokeResult with
  | Except.ok r => Except.ok r
  | Except.error _ => Except.error "Failed to process with AI"

/-! ## OCRUpload: asking a question -/

/-- The whitespace class of JavaScript `String.prototype.trim` (restricted
to the ASCII whitespace the app can receive from its text area). -/
def jsWhitespace (c : Char) : Bool :=
  c = ' ' || c = '\t' || c = '\n' || c = '\r' || c = '\x0b' || c = '\x0c'

/-- JavaScript `question.trim()`: strips leading and trailing whitespace.
Defined over the character list so that it evaluates structurally. -/
def jsTrim (s : String) : String :=
  ⟨((s.data.dropWhile jsWhitespace).reverse.dropWhile jsWhitespace).reverse⟩

/-- The success-path history update of `handleAskQuestion`:
`findIndex(qa => qa.timestamp === t)` followed by an in-place answer
assignment — the first turn whose timestamp equals `t` gets the answer. -/
def updateAnswer (t : Nat) (ans : String) : List QAPair → List QAPair
  | [] => []
  | q :: rest =>
      if q.timestamp = t then { q with answer := ans } :: rest
      else q :: updateAnswer t ans rest

/-- How a call to `handleAskQuestion` ended, as surfaced to the user via
the toasts. -/
inductive AskOutcome where
  | precondError
  | answered
  | serviceError
  deriving Repr, DecidableEq

/-- Handler `handleAskQuestion`: rejects a blank question or absent extracted text
with no state change; otherwise appends a pending turn (answer `"..."`,
timestamp `now` from `Date.now()`), clears the input, and then either
fills in the service answer (by timestamp lookup) or, if the service call
failed, removes every turn carrying that timestamp
(`prev.filter(q => q.timestamp !== newQAPair.timestamp)`).  The
`isAnswering` flag is cleared in the `finally` block. -/
def handleAskQuestion (now : Nat) (service : Except String String)
    (s : SessionState) : SessionState × AskOutcome :=
  if jsTrim s.question = "" ∨ s.extractedText = "" then
    (s, AskOutcome.precondError)
  else
    let userQuestion := jsTrim s.question
    let newQAPair : QAPair := { question := userQuestion, answer := "...", timestamp := now }
    let s1 := { s with isAnswering := true
                       qaHistory := s.qaHistory ++ [newQAPair]
                       question := "" }
    match service with
    | Except.ok aiAnswer =>
        ({ s1 with qaHistory := updateAnswer newQAPair.timestamp aiAnswer s1.qaHistory
                   isAnswering := false },
         AskOutcome.answered)
    | Except.error _ =>
        ({ s1 with qaHistory := s1.qaHistory.filter (fun q => q.timestamp ≠ newQAPair.timestamp)
                   isAnswering := false },
         AskOutcome.serviceError)

/-! ## OCRUpload: study-feature generation -/

/-- The synchronous prefix of `handleStudyFeature`: with no extracted text
it rejects with a toast and no state change; otherwise it sets
`isGenerating`, makes `feature` the active one and blanks the previous
result, then issues the service call. -/
def handleStudyFeatureStart (feature : StudyFeature) (s : SessionState) : SessionState :=
  if s.extractedText = "" then s
  else { s with isGenerating := true, activeFeature := some feature, studyResult := "" }

/-- The continuation of `handleStudyFeature` once its service call
settles: on success the result is stored; on failure the active feature is
cleared; either way `isGenerating` is cleared in the `finally` block.
Nothing in it consults which feature is currently active. -/
def handleStudyFeatureResolve (outcome : Except String String)
    (s : SessionState) : SessionState :=
  match outcome with
  | Except.ok result => { s with studyResult := result, isGenerating := false }
  | Except.error _ => { s with activeFeature := none, isGenerating := false }

/-- Handler `handleStudyFeature` run to completion with no interleaving: start,
then resolve with the service outcome. -/
def handleStudyFeature (feature : StudyFeature) (outcome : Except String String)
    (s : SessionState) : SessionState :=
  if s.extractedText = "" then s
  else handleStudyFeatureResolve outcome (handleStudyFeatureStart feature s)

/-! ## The ai-study-tools edge function (`supabase/functions/ai-study-tools/index.ts`) -/

/-- The request body `{ text, action, question }`.  `action` is kept as a
raw string because the JSON body is untyped at runtime and the `switch`
has a reachable `default` branch. -/
structure ServiceRequest where
  text : String
  action : String
  question : Option String
  deriving Repr, DecidableEq

/-- The upstream Gemini call as seen by the handler: `response.ok`,
`response.status`, and the extracted first-candidate text
`data.candidates?.[0]?.content?.parts?.[0]?.text` (`none` when absent
anywhere along that chain). -/
structure UpstreamResponse where
  ok : Bool
  status : Nat
  result : Option String
  deriving Repr, DecidableEq

/-- The HTTP response produced by the handler: a 200 `{ result }` body or
a 500 `{ error }` body. -/
inductive ServiceResponse where
  | success (result : String)
  | failure (error : String)
  deriving Repr, DecidableEq

/-- The HTTP status the handler attaches to each body shape. -/
def ServiceResponse.status : ServiceResponse → Nat
  | ServiceResponse.success _ => 200
  | ServiceResponse.failure _ => 500

/-- JS truthiness of an optional string: present and non-empty. -/
def truthyOpt : Option String → Bool
  | none => false
  | some s => s ≠ ""

/-- The five recognized `action` values of the `switch`. -/
def recognizedAction (a : String) : Bool :=
  a = "qa" || a = "lesson" || a = "flashcards" || a = "summarize" || a = "quiz"

/-- The `qa` system prompt (the template literal with `text` spliced in). -/
def qaSystemPrompt (text : String) : String :=
  "You are an expert Q&A assistant. Answer the user\x27s question ONLY using the provided text. If the answer is not in the text, state clearly that the information cannot be found in the document.\n\n--- PROVIDED DOCUMENT TEXT ---\n"
    ++ text ++ "\n--- END OF DOCUMENT TEXT ---"

/-- The `lesson` system prompt. -/
def lessonSystemPrompt : String :=
  "You are an expert educator. Create a structured, comprehensive lesson from the provided text."

/-- The `lesson` user prompt with `text` spliced in. -/
def lessonUserPrompt (text : String) : String :=
  "Create a detailed lesson plan from this text. Include:\n1. Learning Objectives (3-5 key points)\n2. Main Concepts (organized by topics)\n3. Key Terminology (definitions)\n4. Summary\n5. Practice Questions (3-5 questions)\n\nText:\n"
    ++ text

/-- The `flashcards` system prompt. -/
def flashcardsSystemPrompt : String :=
  "You are an expert at creating educational flashcards. Extract key concepts and create clear, concise flashcards."

/-- The `flashcards` user prompt with `text` spliced in. -/
def flashcardsUserPrompt (text : String) : String :=
  "Create 8-12 flashcards from this text. Format each as:\nFRONT: [Question or term]\nBACK: [Answer or definition]\n\nMake them concise and focused on key concepts.\n\nText:\n"
    ++ text

/-- The `summarize` system prompt. -/
def summarizeSystemPrompt : String :=
  "You are an expert at creating clear, concise summaries while preserving key information."

/-- The `summarize` user prompt with `text` spliced in. -/
def summarizeUserPrompt (text : String) : String :=
  "Create a comprehensive summary of this text. Include:\n1. Main Ideas (3-5 bullet points)\n2. Key Details\n3. Important Conclusions\n\nKeep it clear and organized.\n\nText:\n"
    ++ text

/-- The `quiz` system prompt. -/
def quizSystemPrompt : String :=
  "You are an expert at creating engaging educational quizzes."

/-- The `quiz` user prompt with `text` spliced in. -/
def quizUserPrompt (text : String) : String :=
  "Create a 10-question quiz from this text. Format each question as:\n\nQ[number]: [Question]\nA) [Option A]\nB) [Option B]\nC) [Option C]\nD) [Option D]\nCorrect Answer: [A/B/C/D]\nExplanation: [Brief explanation]\n\nMix question types: factual recall, comprehension, and application.\n\nText:\n"
    ++ text

/-- The `switch (action)` of the handler: yields the system and user
prompts, or throws for a missing question on `qa` (an empty-string
question is falsy in JS, hence rejected like an absent one) and for an
unrecognized action. -/
def buildPrompts (text action : String) (question : Option String) :
    Except String (String × String) :=
  if action = "qa" then
    match question with
    | none => Except.error "Question is required for Q&A action"
    | some q =>
        if q = "" then Except.error "Question is required for Q&A action"
        else Except.ok (qaSystemPrompt text, q)
  else if action = "lesson" then Except.ok (lessonSystemPrompt, lessonUserPrompt text)
  else if action = "flashcards" then Except.ok (flashcardsSystemPrompt, flashcardsUserPrompt text)
  else if action = "summarize" then Except.ok (summarizeSystemPrompt, summarizeUserPrompt text)
  else if action = "quiz" then Except.ok (quizSystemPrompt, quizUserPrompt text)
  else Except.error "Invalid action"

/-- The tail of the `try` body, after the fetch: `if (!response.ok)`
throws with the upstream status; a falsy extracted candidate text (absent
or the empty string) throws `No response from Gemini API`; otherwise the
candidate text is the result. -/
def upstreamResult (u : UpstreamResponse) : Except String String :=
  if u.ok = false then Except.error ("Gemini API error: " ++ toString u.status)
  else
    match u.result with
    | none => Except.error "No response from Gemini API"
    | some r => if r = "" then Except.error "No response from Gemini API" else Except.ok r

/-- The `try` body of the request handler, in source order: require truthy
`text`, require a configured (truthy) `GEMINI_API_KEY`, build the prompts
via the `switch`, then run the upstream call. -/
def handleRequest (req : ServiceRequest) (apiKey : Option String)
    (u : UpstreamResponse) : Except String String :=
  if req.text = "" then Except.error "Text is required"
  else
    match apiKey with
    | none => Except.error "GEMINI_API_KEY is not configured"
    | some key =>
        if key = "" then Except.error "GEMINI_API_KEY is not configured"
        else
          match buildPrompts req.text req.action req.question with
          | Except.error e => Except.error e
          | Except.ok _ => upstreamResult u

/-- The full `serve` handler on a POST body: the `catch` turns any thrown
error into an HTTP 500 `{ error }`; otherwise the result is an HTTP 200
`{ result }`. -/
def serve (req : ServiceRequest) (apiKey : Option String)
    (u : UpstreamResponse) : ServiceResponse :=
  match handleRequest req apiKey u with
  | Except.ok r => ServiceResponse.success r
  | Except.error e => ServiceResponse.failure e

/-- Helper: the `switch` succeeds exactly for a recognized action whose
`qa` case carries a truthy question. -/
theorem buildPrompts_ok_iff (text action : String) (question : Option String) :
    (∃ p, buildPrompts text action question = Except.ok p) ↔
      (recognizedAction action = true ∧ (action = "qa" → truthyOpt question = true)) := by
  unfold buildPrompts recognizedAction truthyOpt
  by_cases hqa : action = "qa"
  · subst hqa
    cases question with
    | none => simp
    | some q => by_cases hq : q = "" <;> simp [hq]
  · by_cases hl : action = "lesson"
    · subst hl; simp
    · by_cases hf : action = "flashcards"
      · subst hf; simp
      · by_cases hs : action = "summarize"
        · subst hs; simp
        · by_cases hz : action = "quiz"
          · subst hz; simp
          · simp [hqa, hl, hf, hs, hz]

/-- Helper: the upstream tail succeeds exactly on an ok status with a
truthy candidate text, and the returned result is that text. -/
theorem upstreamResult_ok_iff (u : UpstreamResponse) :
    (∃ r, upstreamResult u = Except.ok r ∧ u.result = some r) ↔
      (u.ok = true ∧ truthyOpt u.result = true) := by
  unfold upstreamResult truthyOpt
  cases ho : u.ok
  · simp
  · cases hr : u.result with
    | none => simp
    | some r => by_cases h : r = "" <;> simp [h]

/-- Helper: full characterization of success of the `try` body. -/
theorem handleRequest_ok_iff (req : ServiceRequest) (apiKey : Option String)
    (u : UpstreamResponse) :
    (∃ r, handleRequest req apiKey u = Except.ok r ∧ u.result = some r) ↔
      (req.text ≠ "" ∧ truthyOpt apiKey = true ∧
        recognizedAction req.action = true ∧
        (req.action = "qa" → truthyOpt req.question = true) ∧
        u.ok = true ∧ truthyOpt u.result = true) := by
  by_cases h1 : req.text = ""
  · simp [handleRequest, h1]
  · cases apiKey with
    | none => simp [handleRequest, h1, truthyOpt]
    | some key =>
        by_cases h2 : key = ""
        · simp [handleRequest, h1, h2, truthyOpt]
        · cases hbp : buildPrompts req.text req.action req.question with
          | error e =>
              have hnot : ¬ (recognizedAction req.action = true ∧
                  (req.action = "qa" → truthyOpt req.question = true)) := by
                rw [← buildPrompts_ok_iff req.text req.action req.question]
                simp [hbp]
              simp only [handleRequest, h1, if_neg h1, h2, if_neg h2, hbp]
              constructor
              · rintro ⟨r, hr, -⟩
                exact absurd hr (by simp)
              · rintro ⟨-, -, ha, hq, -⟩
                exact absurd ⟨ha, hq⟩ hnot
          | ok p =>
              have hcond := (buildPrompts_ok_iff req.text req.action req.question).mp ⟨p, hbp⟩
              simp only [handleRequest, if_neg h1, if_neg h2, hbp]
              rw [upstreamResult_ok_iff]
              constructor
              · rintro ⟨hok, hres⟩
                exact ⟨h1, by simp [truthyOpt, h2], hcond.1, hcond.2, hok, hres⟩
              · rintro ⟨-, -, -, -, hok, hres⟩
                exact ⟨hok, hres⟩

/-! ## Claims C9, C10 -/

/-- C9 (counterexample): a request whose question is present but empty
(`some ""`) on the `qa` action, with non-empty text, a configured
credential, and a successful non-empty upstream payload, is answered with
an HTTP 500 error, not the HTTP 200 success the claim requires. -/
theorem qa_present_empty_question_rejected :
    (ServiceRequest.mk "hello" "qa" (some "")).question.isSome = true ∧
    (ServiceRequest.mk "hello" "qa" (some "")).text ≠ "" ∧
    recognizedAction "qa" = true ∧
    truthyOpt (some "k") = true ∧
    (UpstreamResponse.mk true 200 (some "answer")).ok = true ∧
    truthyOpt (some "answer") = true ∧
    serve (ServiceRequest.mk "hello" "qa" (some "")) (some "k")
        (UpstreamResponse.mk true 200 (some "answer")) =
      ServiceResponse.failure "Question is required for Q&A action" ∧
    (serve (ServiceRequest.mk "hello" "qa" (some "")) (some "k")
        (UpstreamResponse.mk true 200 (some "answer"))).status = 500 := by
  refine ⟨rfl, by decide, rfl, by decide, rfl, by decide, rfl, rfl⟩

/-- C9 (amended): the handler returns HTTP 200 with `{ result }` (the
upstream candidate text) exactly when the text is non-empty, the action is
recognized, the `qa` action carries a present *and non-empty* question,
the credential is configured and non-empty, the upstream status is ok and
the upstream payload is present and non-empty; in every other case it
returns HTTP 500 with `{ error }`. -/
theorem serve_success_iff (req : ServiceRequest) (apiKey : Option String)
    (u : UpstreamResponse) :
    ((∃ r, serve req apiKey u = ServiceResponse.success r ∧ u.result = some r) ↔
      (req.text ≠ "" ∧ recognizedAction req.action = true ∧
        (req.action = "qa" → truthyOpt req.question = true) ∧
        truthyOpt apiKey = true ∧ u.ok = true ∧ truthyOpt u.result = true)) ∧
    ((∃ r, serve req apiKey u = ServiceResponse.success r ∧
        (serve req apiKey u).status = 200) ∨
      (∃ e, serve req apiKey u = ServiceResponse.failure e ∧
        (serve req apiKey u).status = 500)) := by
  constructor
  · have hlift : (∃ r, serve req apiKey u = ServiceResponse.success r ∧ u.result = some r) ↔
        (∃ r, handleRequest req apiKey u = Except.ok r ∧ u.result = some r) := by
      unfold serve
      cases h : handleRequest req apiKey u <;> simp
    rw [hlift, handleRequest_ok_iff]
    tauto
  · cases h : serve req apiKey u with
    | success r => exact Or.inl ⟨r, rfl, rfl⟩
    | failure e => exact Or.inr ⟨e, rfl, rfl⟩

/-- C10: for any action other than `qa`, the question field never reaches
the prompts or the response: two requests differing only in `question`
build the same prompts and get the same response. -/
theorem question_noninterference_non_qa
    (text a : String) (q1 q2 : Option String) (apiKey : Option String)
    (u : UpstreamResponse) (ha : a ≠ "qa") :
    buildPrompts text a q1 = buildPrompts text a q2 ∧
    serve (ServiceRequest.mk text a q1) apiKey u =
      serve (ServiceRequest.mk text a q2) apiKey u := by
  have hbp : buildPrompts text a q1 = buildPrompts text a q2 := by
    unfold buildPrompts
    simp [ha]
  exact ⟨hbp, by simp [serve, handleRequest, hbp]⟩

/-- C10 witness: a `lesson` request with the question absent versus
present gets identical prompts and an identical response. -/
theorem question_noninterference_non_qa_witness :
    ("lesson" : String) ≠ "qa" ∧
    (buildPrompts "T" "lesson" none = buildPrompts "T" "lesson" (some "X") ∧
      serve (ServiceRequest.mk "T" "lesson" none) (some "k")
          (UpstreamResponse.mk true 200 (some "R")) =
        serve (ServiceRequest.mk "T" "lesson" (some "X")) (some "k")
          (UpstreamResponse.mk true 200 (some "R"))) :=
  ⟨by decide,
   question_noninterference_non_qa "T" "lesson" none (some "X") (some "k")
     (UpstreamResponse.mk true 200 (some "R")) (by decide)⟩

/-! ## Claims C1 – C5 -/

/-- C1 (failing input): in a session with a non-empty QA history and an
active quiz artifact, a successful recognition run replaces the extracted
text but leaves the QA history, the active artifact kind and its content
all in place — only `resetUpload` clears them. -/
theorem processOCR_keeps_history_and_artifact :
    (processOCR (Except.ok "new text")
        { initialState with
            extractedText := "old text"
            qaHistory := [⟨"Q", "A", 1⟩]
            activeFeature := some StudyFeature.quiz
            studyResult := "Old quiz" }).extractedText = "new text" ∧
    (processOCR (Except.ok "new text")
        { initialState with
            extractedText := "old text"
            qaHistory := [⟨"Q", "A", 1⟩]
            activeFeature := some StudyFeature.quiz
            studyResult := "Old quiz" }).qaHistory = [⟨"Q", "A", 1⟩] ∧
    (processOCR (Except.ok "new text")
        { initialState with
            extractedText := "old text"
            qaHistory := [⟨"Q", "A", 1⟩]
            activeFeature := some StudyFeature.quiz
            studyResult := "Old quiz" }).activeFeature = some StudyFeature.quiz ∧
    (processOCR (Except.ok "new text")
        { initialState with
            extractedText := "old text"
            qaHistory := [⟨"Q", "A", 1⟩]
            activeFeature := some StudyFeature.quiz
            studyResult := "Old quiz" }).studyResult = "Old quiz" := by
  refine ⟨rfl, rfl, rfl, rfl⟩

/-- C2 (counterexample): `generate(quiz)` issued while `generate(lesson)`
is pending, with the lesson call resolving after the quiz result was
applied: the session ends with the quiz as active feature but the lesson
text as content — the late lesson result is not discarded. -/
theorem late_generation_overwrites :
    (handleStudyFeatureResolve (Except.ok "LESSON RESULT")
        (handleStudyFeatureResolve (Except.ok "QUIZ RESULT")
          (handleStudyFeatureStart StudyFeature.quiz
            (handleStudyFeatureStart StudyFeature.lesson
              { initialState with extractedText := "T" })))).activeFeature
        = some StudyFeature.quiz ∧
    (handleStudyFeatureResolve (Except.ok "LESSON RESULT")
        (handleStudyFeatureResolve (Except.ok "QUIZ RESULT")
          (handleStudyFeatureStart StudyFeature.quiz
            (handleStudyFeatureStart StudyFeature.lesson
              { initialState with extractedText := "T" })))).studyResult
        = "LESSON RESULT" ∧
    "LESSON RESULT" ≠ "QUIZ RESULT" := by
  refine ⟨rfl, rfl, by decide⟩

/-- C2 (amended): the handlers contain no staleness check, so whichever
service call resolves last wins: after start A, start B, resolve B,
late-resolve A, the active feature is B but the stored content is the
result of A. -/
theorem late_generation_result_not_discarded
    (s : SessionState) (hs : s.extractedText ≠ "")
    (A B : StudyFeature) (rA rB : String) :
    (handleStudyFeatureResolve (Except.ok rA)
        (handleStudyFeatureResolve (Except.ok rB)
          (handleStudyFeatureStart B
            (handleStudyFeatureStart A s)))).activeFeature = some B ∧
    (handleStudyFeatureResolve (Except.ok rA)
        (handleStudyFeatureResolve (Except.ok rB)
          (handleStudyFeatureStart B
            (handleStudyFeatureStart A s)))).studyResult = rA := by
  simp [handleStudyFeatureStart, handleStudyFeatureResolve, hs]

/-- C2 witness: the amended theorem at a concrete session. -/
theorem late_generation_result_not_discarded_witness :
    (handleStudyFeatureResolve (Except.ok "L")
        (handleStudyFeatureResolve (Except.ok "Q")
          (handleStudyFeatureStart StudyFeature.quiz
            (handleStudyFeatureStart StudyFeature.lesson
              { initialState with extractedText := "T" })))).activeFeature
        = some StudyFeature.quiz ∧
    (handleStudyFeatureResolve (Except.ok "L")
        (handleStudyFeatureResolve (Except.ok "Q")
          (handleStudyFeatureStart StudyFeature.quiz
            (handleStudyFeatureStart StudyFeature.lesson
              { initialState with extractedText := "T" })))).studyResult = "L" :=
  late_generation_result_not_discarded
    { initialState with extractedText := "T" } (by decide)
    StudyFeature.lesson StudyFeature.quiz "L" "Q"

/-- C3 (counterexample): when an earlier turn already carries the same
millisecond timestamp that `Date.now()` hands the new turn, the
failure-path `filter` removes that earlier turn together with the pending
one, so the history is not restored to its pre-call value. -/
theorem failed_ask_removes_older_turn :
    (handleAskQuestion 5 (Except.error "boom")
        { initialState with
            extractedText := "T"
            question := "second question"
            qaHistory := [⟨"first question", "first answer", 5⟩] }).1.qaHistory
      = [] ∧
    (handleAskQuestion 5 (Except.error "boom")
        { initialState with
            extractedText := "T"
            question := "second question"
            qaHistory := [⟨"first question", "first answer", 5⟩] }).1.qaHistory
      ≠ [⟨"first question", "first answer", 5⟩] ∧
    (handleAskQuestion 5 (Except.error "boom")
        { initialState with
            extractedText := "T"
            question := "second question"
            qaHistory := [⟨"first question", "first answer", 5⟩] }).2
      = AskOutcome.serviceError := by
  refine ⟨rfl, by decide, rfl⟩

/-- C3 (amended): provided the timestamp of the new turn differs from every
timestamp already in the history, a failed QA call leaves the history
exactly as it was before the call (the pending sentinel turn is removed)
and surfaces a service error. -/
theorem failed_ask_restores_history
    (s : SessionState) (now : Nat) (err : String)
    (hq : jsTrim s.question ≠ "") (ht : s.extractedText ≠ "")
    (hfresh : ∀ q ∈ s.qaHistory, q.timestamp ≠ now) :
    (handleAskQuestion now (Except.error err) s).1.qaHistory = s.qaHistory ∧
    (handleAskQuestion now (Except.error err) s).2 = AskOutcome.serviceError := by
  have hcond : ¬ (jsTrim s.question = "" ∨ s.extractedText = "") := by
    push_neg
    exact ⟨hq, ht⟩
  simp only [handleAskQuestion, hcond, if_neg hcond, List.filter_append]
  refine ⟨?_, rfl⟩
  simp
  intro a ha
  exact hfresh a ha

/-- C3 witness: the amended theorem at a concrete session whose one prior
turn has timestamp 3 while the new turn gets timestamp 7. -/
theorem failed_ask_restores_history_witness :
    (handleAskQuestion 7 (Except.error "boom")
        { initialState with
            extractedText := "T"
            question := "why"
            qaHistory := [⟨"a", "b", 3⟩] }).1.qaHistory = [⟨"a", "b", 3⟩] ∧
    (handleAskQuestion 7 (Except.error "boom")
        { initialState with
            extractedText := "T"
            question := "why"
            qaHistory := [⟨"a", "b", 3⟩] }).2 = AskOutcome.serviceError :=
  failed_ask_restores_history
    { initialState with extractedText := "T", question := "why", qaHistory := [⟨"a", "b", 3⟩] }
    7 "boom" (by decide) (by decide) (by decide)

/-- C4: a blank (empty or whitespace-only) question, or absent extracted
text, makes `handleAskQuestion` fail its precondition check: the state is
unchanged (in particular no QA turn is appended) and a precondition error
is surfaced. -/
theorem blank_question_or_no_text_rejected
    (s : SessionState) (now : Nat) (service : Except String String)
    (h : jsTrim s.question = "" ∨ s.extractedText = "") :
    handleAskQuestion now service s = (s, AskOutcome.precondError) := by
  simp [handleAskQuestion, h]

/-- C4 witness: asking `"   "` with text present is rejected with no
state change. -/
theorem blank_question_or_no_text_rejected_witness :
    (jsTrim ({ initialState with extractedText := "T", question := "   " } :
        SessionState).question = "" ∨
      ({ initialState with extractedText := "T", question := "   " } :
        SessionState).extractedText = "") ∧
    handleAskQuestion 0 (Except.ok "x")
        { initialState with extractedText := "T", question := "   " } =
      ({ initialState with extractedText := "T", question := "   " },
        AskOutcome.precondError) :=
  ⟨Or.inl rfl,
   blank_question_or_no_text_rejected
     { initialState with extractedText := "T", question := "   " } 0 (Except.ok "x")
     (Or.inl rfl)⟩

/-- C5 (counterexample): an underlying invoke failure carrying the message
`Edge function returned a non-2xx status code` surfaces as the fixed
message `Failed to process with AI`, not as the underlying one. -/
theorem generation_error_message_not_from_cause :
    callAIStudyTool (some "Edge function returned a non-2xx status code") none =
      Except.error "Failed to process with AI" ∧
    "Failed to process with AI" ≠ "Edge function returned a non-2xx status code" := by
  refine ⟨rfl, by decide⟩

/-- C5 (amended): every failure of `callAIStudyTool` — whatever message
the underlying cause carried — reaches the user with the one fixed
human-readable message `Failed to process with AI`. -/
theorem generation_error_message_fixed
    (invokeError invokeResult : Option String) (m : String)
    (h : callAIStudyTool invokeError invokeResult = Except.error m) :
    m = "Failed to process with AI" := by
  unfold callAIStudyTool at h
  cases hi : invokeAIStudyTool invokeError invokeResult <;> rw [hi] at h <;> simp_all

/-- C5 witness: the amended theorem at a concrete invoke failure. -/
theorem generation_error_message_fixed_witness :
    callAIStudyTool (some "network down") none =
      Except.error "Failed to process with AI" ∧
    "Failed to process with AI" = "Failed to process with AI" :=
  ⟨rfl,
   generation_error_message_fixed (some "network down") none
     "Failed to process with AI" rfl⟩

end Mfanekiso
